import Mathlib

/-!
Verification development for the ce-sdm-backend support-thread summarizer.

The definitions below are a shallow embedding of the Python sources:
  - `core/summarizer.py` (TextProcessor, LLMSummarizer, RuleBasedSummarizer,
    ThreadSummarizer),
  - `core/views.py` (summarize / save_edit / approve / admin_reset views),
  - `core/crm_context.py` (order / customer lookups),
  - `core/io_utils.py` (append-only export log).

Network calls made by the LLM client are modelled by explicit outcome
parameters (`validateOk`, `genResult`); the reference-data store is modelled
as an explicit lookup environment (`CrmEnv`); the Django ORM row for a
`Summary` is modelled as `SummaryRow`, with the per-thread store being
`Option SummaryRow` (absent = no row).  Python string truthiness (empty
string / empty dict are falsy) is modelled by explicit emptiness tests.
-/

namespace CeSdm

/-! ### Basic text utilities (embedding of `TextProcessor` helpers) -/

/-- Lower-casing of a string, embedding Python `str.lower()` on the
ASCII alphabet used by the keyword tables. -/
def lowerStr (s : String) : String :=
  String.mk (s.data.map Char.toLower)

/-- `listPrefixOf n h` is true iff `n` is a prefix of `h`. -/
def listPrefixOf : List Char → List Char → Bool
  | [], _ => true
  | _ :: _, [] => false
  | a :: as, b :: bs => a == b && listPrefixOf as bs

/-- `listSub n h` is true iff `n` occurs as a contiguous sublist of `h`,
embedding the Python `needle in haystack` substring test. -/
def listSub : List Char → List Char → Bool
  | n, [] => n.isEmpty
  | n, c :: hs => listPrefixOf n (c :: hs) || listSub n hs

/-- `strContainsSub hay needle` embeds Python `needle in hay`. -/
def strContainsSub (hay needle : String) : Bool :=
  listSub needle.data hay.data

/-- Embedding of `TextProcessor.contains_any_keyword`: case-insensitive
substring match of any keyword in the text. -/
def contains_any_keyword (text : String) (keywords : List String) : Bool :=
  let textLower := lowerStr text
  keywords.any (fun k => strContainsSub textLower k)

/-! ### Keyword tables (embedding of `INTENT_KEYWORDS`) -/

def kwRefund : List String := ["refund", "credit", "money back"]
def kwReplacement : List String := ["replace", "replacement", "send another"]
def kwReturn : List String := ["return", "rma", "send back"]
def kwPhotos : List String := ["photo", "photos", "picture", "pictures", "image"]
def kwAddress : List String := ["address", "delivery address"]
def kwTracking : List String := ["tracking", "carrier", "shipment status"]
def kwDamaged : List String := ["damage", "damaged", "broken", "defective"]
def kwDelay : List String := ["late", "delayed", "delay", "not arrived"]
def kwWrongVariant : List String := ["wrong", "size", "color", "variant"]

/-! ### Issue classification and ask detection (`RuleBasedSummarizer`) -/

/-- Embedding of `RuleBasedSummarizer.classify_issue_type`: fixed priority
if-chain damaged > delay > wrong_variant > return > refund > default. -/
def classify_issue_type (text : String) : String :=
  if contains_any_keyword text kwDamaged then "Damaged item on arrival"
  else if contains_any_keyword text kwDelay then "Late delivery"
  else if contains_any_keyword text kwWrongVariant then "Wrong variant received"
  else if contains_any_keyword text kwReturn then "Return request"
  else if contains_any_keyword text kwRefund then "Refund request"
  else "General inquiry"

/-- Embedding of `RuleBasedSummarizer.detect_customer_asks`: iterate the
fixed candidate list refund, replacement, return, photos, address, tracking
and collect those whose keywords occur in the text. -/
def detect_customer_asks (text : String) : List String :=
  (if contains_any_keyword text kwRefund then ["refund"] else []) ++
  (if contains_any_keyword text kwReplacement then ["replacement"] else []) ++
  (if contains_any_keyword text kwReturn then ["return"] else []) ++
  (if contains_any_keyword text kwPhotos then ["photos"] else []) ++
  (if contains_any_keyword text kwAddress then ["address"] else []) ++
  (if contains_any_keyword text kwTracking then ["tracking"] else [])

def actPhotos : String := "Request photographic evidence of the issue from the customer"
def actRMA : String := "Generate Return Merchandise Authorization (RMA) and return shipping label"
def actRefund : String := "Process refund upon receipt of returned item"
def actReplacement : String := "Offer replacement if stock available"
def actAddress : String := "Confirm delivery address with customer"
def actTracking : String := "Provide tracking information to customer"
def actDefault : String := "Confirm details with customer and determine next steps"

/-- The six trigger rules of `RuleBasedSummarizer.build_next_actions`, in
source order, before the default action is considered. -/
def buildNextActionsCore (issue_type : String) (customer_asks : List String) : List String :=
  (if customer_asks.contains "photos" || issue_type = "Damaged item on arrival"
    then [actPhotos] else []) ++
  (if customer_asks.contains "return" || issue_type = "Damaged item on arrival"
      || issue_type = "Wrong variant received"
    then [actRMA] else []) ++
  (if customer_asks.contains "refund" || issue_type = "Damaged item on arrival"
    then [actRefund] else []) ++
  (if customer_asks.contains "replacement" then [actReplacement] else []) ++
  (if customer_asks.contains "address" then [actAddress] else []) ++
  (if customer_asks.contains "tracking" then [actTracking] else [])

/-- Embedding of `RuleBasedSummarizer.build_next_actions`: run the six
trigger rules; if none fired, insert the single default action. -/
def build_next_actions (issue_type : String) (customer_asks : List String) : List String :=
  let actions := buildNextActionsCore issue_type customer_asks
  if actions.isEmpty then [actDefault] else actions

/-- Embedding of `RuleBasedSummarizer.determine_disposition`: fixed
precedence refund > replacement > return > default. -/
def determine_disposition (customer_asks : List String) : String :=
  if customer_asks.contains "refund" then "Refund"
  else if customer_asks.contains "replacement" then "Replacement"
  else if customer_asks.contains "return" then "RMA + Refund"
  else "Agent to confirm with customer"

/-! ### Reference-data enrichment (embedding of `crm_context.py` and
`RuleBasedSummarizer.fetch_crm_context`) -/

/-- An order record as read by `fetch_crm_context` via `order.get(...)`:
each consulted key may be absent. -/
structure Order where
  policy : Option String
  stock_available : Option Bool
  status : Option String
  customer_id : Option String
deriving DecidableEq

/-- A customer record as read via `cust.get(...)`. -/
structure Customer where
  customer_id : Option String
  name : Option String
  email : Option String
deriving DecidableEq

/-- The customer snapshot built by `fetch_crm_context`. -/
structure CustomerSnapshot where
  customer_id : Option String
  name : Option String
  email : Option String
deriving DecidableEq

/-- The read-only reference-data store of `crm_context.py`
(`get_order` / `get_customer`), modelled as a lookup environment. -/
structure CrmEnv where
  getOrder : String → Option Order
  getCustomer : String → Option Customer

/-- The tuple returned by `RuleBasedSummarizer.fetch_crm_context`. -/
structure CrmContext where
  policy : Option String
  stock_available : Option Bool
  order_status : Option String
  customer_snapshot : Option CustomerSnapshot
deriving DecidableEq

/-- Embedding of `RuleBasedSummarizer.fetch_crm_context`: empty `order_id`
or a missed order lookup leave everything absent; a present order yields
its fields, plus one customer lookup when `customer_id` is truthy. -/
def fetch_crm_context (env : CrmEnv) (order_id : String) : CrmContext :=
  if order_id = "" then ⟨none, none, none, none⟩
  else
    match env.getOrder order_id with
    | none => ⟨none, none, none, none⟩
    | some o =>
      let snap : Option CustomerSnapshot :=
        match o.customer_id with
        | none => none
        | some cid =>
          if cid = "" then none
          else
            match env.getCustomer cid with
            | none => none
            | some c => some ⟨c.customer_id, c.name, c.email⟩
      ⟨o.policy, o.stock_available, o.status, snap⟩

/-! ### Rule-based summarization (`RuleBasedSummarizer.summarize`) -/

/-- The literal action rewritten by the stock-availability refinement. -/
def actReplacementInStock : String := "Offer replacement (stock available)"

/-- The backorder variant of the replacement action. -/
def actReplacementBackorder : String := "Offer replacement (backorder or out of stock)"

/-- Embedding of the stock-availability list comprehension in
`RuleBasedSummarizer.summarize` (lines 490-500): when `stock_available`
is known, each action equal to the literal
"Offer replacement if stock available" is rewritten in place. -/
def refine_next_actions (stock_available : Option Bool) (actions : List String) :
    List String :=
  match stock_available with
  | none => actions
  | some b =>
    actions.map (fun a =>
      if a = actReplacement && b then actReplacementInStock
      else if a = actReplacement && !b then actReplacementBackorder
      else a)

/-- Embedding of `RuleBasedSummarizer.build_summary_text`: fixed template
with header, narrative, disposition, bulleted actions and optional
trailing CRM facts.  Python truthiness of `order_status` / `policy`
(absent or empty string suppresses the fact) is modelled explicitly. -/
def build_summary_text (issue_type order_id product initiated_by disposition : String)
    (customer_asks next_actions : List String)
    (policy order_status : Option String) : String :=
  let joined := String.intercalate ", " customer_asks
  let base :=
    "**Case Summary: " ++ issue_type ++ " (Order " ++ order_id ++ ")**\n\n" ++
    "The customer has reported a " ++ lowerStr issue_type ++ " for order " ++
    order_id ++ " (" ++ product ++ "). " ++
    "Initiated by " ++ initiated_by ++ ". Customer is requesting: " ++
    (if joined = "" then "assistance" else joined) ++
    ". Recommended disposition: " ++ disposition ++ ".\n\n" ++
    "Next steps:\n"
  let withActions := next_actions.foldl (fun s a => s ++ "\n* " ++ a) base
  let crm_bits :=
    (match order_status with
     | some st => if st = "" then [] else ["Order status: " ++ st ++ "."]
     | none => []) ++
    (match policy with
     | some p => if p = "" then [] else ["Policy: " ++ p ++ "."]
     | none => [])
  if crm_bits.isEmpty then withActions
  else withActions ++ "\n\n" ++ String.intercalate " " crm_bits

/-- A message of a thread (`{sender, body}` as read by the summarizer). -/
structure Message where
  sender : String
  body : String
deriving DecidableEq

/-- A thread payload as passed by `views.summarize` to `summarize_thread`:
string fields are the model's CharFields (never `None`), `messages` the
stored message list. -/
structure Thread where
  thread_id : String
  order_id : String
  product : String
  initiated_by : String
  messages : List Message
deriving DecidableEq

/-- The `crm_snapshot` sub-record of `draft_fields`. -/
structure CrmSnapshot where
  policy : Option String
  order_status : Option String
  stock_available : Option Bool
  customer : Option CustomerSnapshot
deriving DecidableEq

/-- The fixed-shape `draft_fields` record produced by both summarizer
paths. -/
structure DraftFields where
  thread_id : String
  order_id : String
  product : String
  initiated_by : String
  issue_type : String
  customer_ask : List String
  attachments_needed : List String
  current_status : String
  recommended_disposition : String
  next_actions : List String
  sla_risk : Bool
  crm_snapshot : CrmSnapshot
deriving DecidableEq

/-- The `{draft_summary, draft_fields}` result of both summarizer paths. -/
structure SummaryResult where
  draft_summary : String
  draft_fields : DraftFields
deriving DecidableEq

/-- The concatenated message text (`" ".join(msg.get("body", "") ...)`). -/
def allText (thread : Thread) : String :=
  String.intercalate " " (thread.messages.map Message.body)

/-- Embedding of `RuleBasedSummarizer.summarize`. -/
def rule_based_summarize (env : CrmEnv) (thread : Thread) : SummaryResult :=
  let all_text := allText thread
  let issue_type := classify_issue_type all_text
  let customer_asks := detect_customer_asks all_text
  let next_actions0 := build_next_actions issue_type customer_asks
  let disposition := determine_disposition customer_asks
  let ctx := fetch_crm_context env thread.order_id
  let next_actions := refine_next_actions ctx.stock_available next_actions0
  let draft_summary := build_summary_text issue_type thread.order_id thread.product
    thread.initiated_by disposition customer_asks next_actions ctx.policy ctx.order_status
  { draft_summary := draft_summary
    draft_fields :=
      { thread_id := thread.thread_id
        order_id := thread.order_id
        product := thread.product
        initiated_by := thread.initiated_by
        issue_type := issue_type
        customer_ask := customer_asks
        attachments_needed := if customer_asks.contains "photos" then ["Photos"] else []
        current_status := "Unresolved"
        recommended_disposition := disposition
        next_actions := next_actions
        sla_risk := false
        crm_snapshot :=
          ⟨ctx.policy, ctx.order_status, ctx.stock_available, ctx.customer_snapshot⟩ } }

/-! ### LLM client output shape (`LLMSummarizer.generate_summary`) -/

/-- The dict produced by `parsed.get(...)` mapping in
`LLMSummarizer.generate_summary`: every key is present there, but the
orchestrator reads it back with defaults, so fields are `Option`s. -/
structure LLMFieldsOpt where
  issue_type : Option String
  customer_ask : Option (List String)
  recommended_disposition : Option String
  next_actions : Option (List String)
deriving DecidableEq

/-- The value `LLMSummarizer.generate_summary` returns on success, as the
orchestrator consumes it (`llm_analysis.get(...)` with defaults). -/
structure LLMAnalysis where
  draft_summary : Option String
  draft_fields : Option LLMFieldsOpt
deriving DecidableEq

/-- The JSON object parsed from the model's content, restricted to the
five schema keys the code reads; each may be missing. -/
structure ParsedJson where
  draft_summary : Option String
  issue_type : Option String
  customer_ask : Option (List String)
  recommended_disposition : Option String
  next_actions : Option (List String)
deriving DecidableEq

/-- Embedding of the result construction at the end of
`LLMSummarizer.generate_summary` (lines 251-259): every key is supplied,
with `""` / `[]` defaults for keys the model omitted. -/
def generate_analysis (p : ParsedJson) : LLMAnalysis :=
  { draft_summary := some (p.draft_summary.getD "")
    draft_fields := some
      { issue_type := some (p.issue_type.getD "")
        customer_ask := some (p.customer_ask.getD [])
        recommended_disposition := some (p.recommended_disposition.getD "")
        next_actions := some (p.next_actions.getD []) } }

/-! ### Orchestrator (`ThreadSummarizer.summarize`) -/

/-- Python truthiness of the `llm_api_key` argument (`if llm_api_key:`):
`None` and the empty string are falsy. -/
def keyTruthy : Option String → Bool
  | none => false
  | some s => !(s = "")

/-- The rule-based provenance footer appended by the orchestrator. -/
def ruleFooter : String :=
  "\n\n---\n*This response was generated via built-in rule-based generation.*"

/-- The LLM provenance footer appended by the orchestrator. -/
def llmFooter : String := "\n\n---\n*This response was generated via LLM.*"

/-- The fallback branch of `ThreadSummarizer.summarize`: the rule-based
result with the rule-based footer appended to `draft_summary`. -/
def rule_based_with_footer (env : CrmEnv) (thread : Thread) : SummaryResult :=
  let r := rule_based_summarize env thread
  { r with draft_summary := r.draft_summary ++ ruleFooter }

/-- `llm_analysis.get("draft_fields", {}).get(key, default)`. -/
def llmGet {α : Type} (a : LLMAnalysis) (f : LLMFieldsOpt → Option α) (d : α) : α :=
  (a.draft_fields.bind f).getD d

/-- Embedding of `ThreadSummarizer.summarize`.  The two network calls are
modelled by explicit outcomes: `validateOk` is the result of
`validate_api_key` (false covers an empty/blank key, HTTP 401, any
non-200 status, and any transport error) and `genResult` the result of
`generate_summary` (`none` covers non-200, empty content, unparsable
JSON, and any transport or unexpected error). -/
def thread_summarize (env : CrmEnv) (thread : Thread) (key : Option String)
    (validateOk : Bool) (genResult : Option LLMAnalysis) : SummaryResult :=
  let llm_analysis : Option LLMAnalysis :=
    if keyTruthy key && validateOk then genResult else none
  match llm_analysis with
  | none => rule_based_with_footer env thread
  | some a =>
    let ctx := fetch_crm_context env thread.order_id
    let ds0 := (a.draft_summary.getD "").replace "\\n" "\n"
    let crm_bits :=
      (match ctx.order_status with
       | some st =>
         if st = "" then []
         else ["Order status is currently listed as \"" ++ st ++ "\"."]
       | none => []) ++
      (match ctx.policy with
       | some p => if p = "" then [] else ["Policy: " ++ p]
       | none => [])
    let ds1 :=
      if crm_bits.isEmpty then ds0
      else ds0 ++ "\n\n" ++ String.intercalate " " crm_bits
    let ds := ds1 ++ llmFooter
    let ca := llmGet a LLMFieldsOpt.customer_ask []
    { draft_summary := ds
      draft_fields :=
        { thread_id := thread.thread_id
          order_id := thread.order_id
          product := thread.product
          initiated_by := thread.initiated_by
          issue_type := llmGet a LLMFieldsOpt.issue_type "General inquiry"
          customer_ask := ca
          attachments_needed := if ca.contains "photos" then ["Photos"] else []
          current_status := "Unresolved"
          recommended_disposition :=
            llmGet a LLMFieldsOpt.recommended_disposition "Agent to confirm"
          next_actions := llmGet a LLMFieldsOpt.next_actions []
          sla_risk := false
          crm_snapshot :=
            ⟨ctx.policy, ctx.order_status, ctx.stock_available, ctx.customer_snapshot⟩ } }

/-! ### Review state machine (embedding of `core/views.py` and
`core/models.py`'s `Summary` row, per thread) -/

/-- The `state` CharField choices of `Summary`. -/
inductive SState where
  | drafted
  | edited
  | approved
deriving DecidableEq, BEq

/-- JSON field bags (`draft_fields` / `edited_fields` / ...) as stored on
the row; the views treat them opaquely except for Python dict truthiness,
modelled as emptiness of an association list. -/
abbrev Fields := List (String × String)

/-- The persisted `Summary` row (`core/models.py`), per thread. -/
structure SummaryRow where
  draft_summary : String
  draft_fields : Fields
  edited_summary : String
  edited_fields : Fields
  approved_summary : String
  approved_fields : Fields
  state : SState
  approver : String
  approved_at : Option String
deriving DecidableEq

/-- The row `Summary.objects.get_or_create` builds from the model's field
defaults when no row exists yet. -/
def newSummaryRow : SummaryRow :=
  { draft_summary := ""
    draft_fields := []
    edited_summary := ""
    edited_fields := []
    approved_summary := ""
    approved_fields := []
    state := .drafted
    approver := ""
    approved_at := none }

/-- The thread columns read when building the export record in `approve`. -/
structure ThreadMeta where
  thread_id : String
  subject : String
  topic : String
  order_id : String
  product : String
deriving DecidableEq

/-- One record of the `approved_summaries.jsonl` append-only log, as built
in `views.approve` (lines 137-148).  The approval timestamp is modelled as
the opaque string the row stores; `isoformat()` serialization is the
identity in this model. -/
structure ExportRecord where
  thread_id : String
  subject : String
  topic : String
  order_id : String
  product : String
  approved_summary : String
  approved_fields : Fields
  approver : String
  approved_at : String
deriving DecidableEq

/-- The four mutating operations of `core/views.py` on one thread's
summary.  Payloads carry the values the view would store after its
`request.data.get(...) or ...` defaulting. -/
inductive Op where
  | summarizeOp (ds : String) (df : Fields)
  | saveEditOp (es : String) (ef : Fields)
  | approveOp (approver : String) (now : String)
  | adminResetOp
deriving DecidableEq

/-- Outcome of one view call: the new row state, whether the call
succeeded (`ok = false` models the not-found 404 raised by
`get_object_or_404(Summary, ...)` before any mutation), and the records
appended to the approved-summaries export log. -/
structure OpOut where
  st : Option SummaryRow
  ok : Bool
  exports : List ExportRecord
deriving DecidableEq

/-- The row mutation performed by `views.approve` (lines 125-134):
approver and timestamp recorded, `edited or draft` copied into the
approved pair (Python `or`: empty string / empty dict falsy), state set
to APPROVED. -/
def approveRow (s : SummaryRow) (approver now : String) : SummaryRow :=
  { s with
    approver := approver
    approved_at := some now
    approved_summary := if s.edited_summary = "" then s.draft_summary else s.edited_summary
    approved_fields := if s.edited_fields.isEmpty then s.draft_fields else s.edited_fields
    state := .approved }

/-- The export record built in `views.approve` after the row was saved. -/
def mkExportRecord (meta : ThreadMeta) (s : SummaryRow) : ExportRecord :=
  { thread_id := meta.thread_id
    subject := meta.subject
    topic := meta.topic
    order_id := meta.order_id
    product := meta.product
    approved_summary := s.approved_summary
    approved_fields := s.approved_fields
    approver := s.approver
    approved_at := s.approved_at.getD "" }

/-- Embedding of the four views on one thread's summary store.  The
enclosing `get_object_or_404(Thread, ...)` is outside this model: the
thread itself is assumed to exist; `ok = false` is the summary-not-found
404, raised before any mutation. -/
def runOp (meta : ThreadMeta) : Op → Option SummaryRow → OpOut
  | .summarizeOp ds df, st =>
    let s := st.getD newSummaryRow
    ⟨some { s with draft_summary := ds, draft_fields := df, state := .drafted }, true, []⟩
  | .saveEditOp _ _, none => ⟨none, false, []⟩
  | .saveEditOp es ef, some s =>
    ⟨some { s with edited_summary := es, edited_fields := ef, state := .edited }, true, []⟩
  | .approveOp _ _, none => ⟨none, false, []⟩
  | .approveOp approver now, some s =>
    let s2 := approveRow s approver now
    ⟨some s2, true, [mkExportRecord meta s2]⟩
  | .adminResetOp, _ => ⟨none, true, []⟩

/-- Rank of a state along the DRAFTED → EDITED → APPROVED chain. -/
def stRank : SState → Nat
  | .drafted => 0
  | .edited => 1
  | .approved => 2

/-- The transition relation asserted by claim C2 as stated: a step is
allowed only if it deletes the row, creates it, or moves the state
forward along DRAFTED → EDITED → APPROVED. -/
def specForwardB : Option SummaryRow → Option SummaryRow → Bool
  | _, none => true
  | none, some _ => true
  | some s, some s2 => Nat.ble (stRank s.state) (stRank s2.state)

/-- Which operations require an existing Summary row (`get_object_or_404`
on `Summary`). -/
def summaryRequired : Op → Bool
  | .saveEditOp _ _ => true
  | .approveOp _ _ => true
  | _ => false

/-- The transition table the code actually implements: `summarize` lands
in DRAFTED from any prior state, `save_edit` in EDITED, `approve` in
APPROVED, `admin_reset` deletes the row. -/
def stepAllowedB : Op → Option SummaryRow → Bool
  | .summarizeOp _ _, some s2 => s2.state == .drafted
  | .saveEditOp _ _, some s2 => s2.state == .edited
  | .approveOp _ _, some s2 => s2.state == .approved
  | .adminResetOp, none => true
  | _, _ => false

/-- Claim C2 formalized as stated: every successful view call moves the
state forward along DRAFTED → EDITED → APPROVED or deletes the row, and
every failed call leaves the store unchanged. -/
def C2claimProp : Prop :=
  ∀ (meta : ThreadMeta) (op : Op) (st : Option SummaryRow),
    ((runOp meta op st).ok = true → specForwardB st (runOp meta op st).st = true) ∧
    ((runOp meta op st).ok = false → (runOp meta op st).st = st)

/-! ### LLM response-content handling (embedding of
`TextProcessor.clean_json_response`, `TextProcessor.repair_json_newlines`
and the `json.loads` call in `LLMSummarizer.generate_summary`) -/

/-- The whitespace class of Python `str.strip()`. -/
def isPySpace (c : Char) : Bool :=
  c == ' ' || c == '\t' || c == '\n' || c == '\r' || c == '\x0b' || c == '\x0c'

/-- `str.strip()` on characters. -/
def pyStripChars (l : List Char) : List Char :=
  ((l.dropWhile isPySpace).reverse.dropWhile isPySpace).reverse

/-- The backquote character of a markdown code fence. -/
def tickChar : Char := Char.ofNat 96

/-- Python `content.split` on a triple-backquote fence: leftmost
non-overlapping occurrences separate the groups. -/
def splitFence : List Char → List (List Char)
  | [] => [[]]
  | c1 :: c2 :: c3 :: rest =>
    if c1 == tickChar && c2 == tickChar && c3 == tickChar then
      [] :: splitFence rest
    else
      match splitFence (c2 :: c3 :: rest) with
      | [] => [[c1]]
      | g :: gs => (c1 :: g) :: gs
  | c :: rest =>
    match splitFence rest with
    | [] => [[c]]
    | g :: gs => (c :: g) :: gs

/-- The fence as a character list. -/
def fenceChars : List Char := [tickChar, tickChar, tickChar]

/-- Rejoin split groups with the fence (used to model
`content.rsplit(fence, 1)[0]`). -/
def joinFence (ls : List (List Char)) : List Char :=
  (ls.intersperse fenceChars).flatten

/-- Embedding of `TextProcessor.clean_json_response`: strip a leading
fenced code block (dropping a leading `json` language tag), then strip
surrounding whitespace. -/
def clean_json_response (content : String) : String :=
  let l := content.data
  if listPrefixOf fenceChars l then
    let c1 := (splitFence l).getD 1 []
    let c2 :=
      if listPrefixOf "json".data c1 then (c1.drop 4).dropWhile isPySpace else c1
    let parts := splitFence c2
    let c3 := if parts.length ≤ 1 then c2 else joinFence parts.dropLast
    String.mk (pyStripChars c3)
  else String.mk (pyStripChars l)

/-- Number of double-quote characters in a list. -/
def countQuotes (l : List Char) : Nat :=
  (l.filter (fun c => c == '"')).length

/-- Character-level semantics of the regex substitution in
`TextProcessor.repair_json_newlines`
(`re.sub(r'(?<!\\)\n(?=(?:[^"]*"[^"]*")*[^"]*$)', '\\n', content)`):
a literal newline matches iff it is not preceded by a backslash and is
followed by an even number of double quotes (i.e. it stands outside a
quoted region).  In an `re.sub` replacement template the two-character
sequence backslash + n denotes the newline character itself, so each
matched newline is replaced by a newline: the substitution rewrites
nothing. -/
def repairAux : Option Char → List Char → List Char
  | _, [] => []
  | prev, c :: rest =>
    if c == '\n' && !(prev == some '\\') && countQuotes rest % 2 == 0 then
      '\n' :: repairAux (some c) rest
    else c :: repairAux (some c) rest

/-- Embedding of `TextProcessor.repair_json_newlines`. -/
def repair_json_newlines (s : String) : String :=
  String.mk (repairAux none s.data)

/-- JSON values, for the embedding of `json.loads`. -/
inductive JVal where
  | jnull
  | jbool (b : Bool)
  | jnum (n : Int)
  | jstr (s : String)
  | jarr (xs : List JVal)
  | jobj (kvs : List (String × JVal))

/-- JSON whitespace as skipped by `json.loads`. -/
def jsonWs (c : Char) : Bool :=
  c == ' ' || c == '\t' || c == '\n' || c == '\r'

/-- Skip JSON whitespace. -/
def skipWs : List Char → List Char
  | [] => []
  | c :: cs => if jsonWs c then skipWs cs else c :: cs

/-- Parse the remainder of a JSON string literal (opening quote already
consumed), accumulating decoded characters.  Standard single-character
escapes are decoded; `json.loads` in strict mode rejects raw control
characters (newlines included) inside strings, as does this parser.
`\uXXXX` escapes, fractions and exponents are outside the modelled JSON
subset (none of the inputs settled here use them). -/
def parseJStringAux : Nat → List Char → List Char → Option (List Char × List Char)
  | 0, _, _ => none
  | _ + 1, _, [] => none
  | fuel + 1, acc, c :: cs =>
    if c == '"' then some (acc.reverse, cs)
    else if c == '\\' then
      match cs with
      | [] => none
      | e :: cs2 =>
        if e == '"' then parseJStringAux fuel ('"' :: acc) cs2
        else if e == '\\' then parseJStringAux fuel ('\\' :: acc) cs2
        else if e == '/' then parseJStringAux fuel ('/' :: acc) cs2
        else if e == 'b' then parseJStringAux fuel ('\x08' :: acc) cs2
        else if e == 'f' then parseJStringAux fuel ('\x0c' :: acc) cs2
        else if e == 'n' then parseJStringAux fuel ('\n' :: acc) cs2
        else if e == 'r' then parseJStringAux fuel ('\r' :: acc) cs2
        else if e == 't' then parseJStringAux fuel ('\t' :: acc) cs2
        else none
    else if c.toNat < 32 then none
    else parseJStringAux fuel (c :: acc) cs

/-- Accumulate decimal digits. -/
def digitsToNat (acc : Nat) : List Char → Nat × List Char
  | [] => (acc, [])
  | c :: cs =>
    if c.isDigit then digitsToNat (acc * 10 + (c.toNat - 48)) cs else (acc, c :: cs)

/-- Parse a JSON integer numeral (optional minus sign, digits). -/
def parseJNum : List Char → Option (Int × List Char)
  | [] => none
  | c :: cs =>
    if c == '-' then
      match cs with
      | d :: _ =>
        if d.isDigit then
          let (n, rest) := digitsToNat 0 cs
          some (-(n : Int), rest)
        else none
      | [] => none
    else if c.isDigit then
      let (n, rest) := digitsToNat 0 (c :: cs)
      some ((n : Int), rest)
    else none

mutual

/-- Recursive-descent JSON value parser (fuel-indexed), the embedding of
`json.loads` on the modelled subset: it consumes one value and returns
the remaining input. -/
def parseJVal : Nat → List Char → Option (JVal × List Char)
  | 0, _ => none
  | fuel + 1, input =>
    match skipWs input with
    | [] => none
    | c :: cs =>
      if c == '"' then
        match parseJStringAux (cs.length + 1) [] cs with
        | some (chars, rest) => some (.jstr (String.mk chars), rest)
        | none => none
      else if c == '[' then parseJArrItems fuel cs
      else if c == '{' then parseJObjItems fuel cs
      else if c == 't' then
        match cs with
        | 'r' :: 'u' :: 'e' :: rest => some (.jbool true, rest)
        | _ => none
      else if c == 'f' then
        match cs with
        | 'a' :: 'l' :: 's' :: 'e' :: rest => some (.jbool false, rest)
        | _ => none
      else if c == 'n' then
        match cs with
        | 'u' :: 'l' :: 'l' :: rest => some (.jnull, rest)
        | _ => none
      else
        match parseJNum (c :: cs) with
        | some (n, rest) => some (.jnum n, rest)
        | none => none

/-- Parse array items after the opening bracket. -/
def parseJArrItems : Nat → List Char → Option (JVal × List Char)
  | 0, _ => none
  | fuel + 1, input =>
    match skipWs input with
    | ']' :: rest => some (.jarr [], rest)
    | inp =>
      match parseJVal fuel inp with
      | none => none
      | some (v, rest) =>
        match parseJArrRest fuel rest with
        | none => none
        | some (vs, rest2) => some (.jarr (v :: vs), rest2)

/-- Parse the `, item`* `]` tail of an array. -/
def parseJArrRest : Nat → List Char → Option (List JVal × List Char)
  | 0, _ => none
  | fuel + 1, input =>
    match skipWs input with
    | ']' :: rest => some ([], rest)
    | ',' :: rest =>
      match parseJVal fuel rest with
      | none => none
      | some (v, rest2) =>
        match parseJArrRest fuel rest2 with
        | none => none
        | some (vs, rest3) => some (v :: vs, rest3)
    | _ => none

/-- Parse object members after the opening brace. -/
def parseJObjItems : Nat → List Char → Option (JVal × List Char)
  | 0, _ => none
  | fuel + 1, input =>
    match skipWs input with
    | '}' :: rest => some (.jobj [], rest)
    | inp =>
      match parseJObjPair fuel inp with
      | none => none
      | some (kv, rest) =>
        match parseJObjRest fuel rest with
        | none => none
        | some (kvs, rest2) => some (.jobj (kv :: kvs), rest2)

/-- Parse the `, pair`* `}` tail of an object. -/
def parseJObjRest : Nat → List Char → Option (List (String × JVal) × List Char)
  | 0, _ => none
  | fuel + 1, input =>
    match skipWs input with
    | '}' :: rest => some ([], rest)
    | ',' :: rest =>
      match parseJObjPair fuel rest with
      | none => none
      | some (kv, rest2) =>
        match parseJObjRest fuel rest2 with
        | none => none
        | some (kvs, rest3) => some (kv :: kvs, rest3)
    | _ => none

/-- Parse one `"key": value` member. -/
def parseJObjPair : Nat → List Char → Option ((String × JVal) × List Char)
  | 0, _ => none
  | fuel + 1, input =>
    match skipWs input with
    | '"' :: cs =>
      match parseJStringAux (cs.length + 1) [] cs with
      | none => none
      | some (key, rest) =>
        match skipWs rest with
        | ':' :: rest2 =>
          match parseJVal fuel rest2 with
          | none => none
          | some (v, rest3) => some ((String.mk key, v), rest3)
        | _ => none
    | _ => none

end

/-- Embedding of `json.loads` over the modelled subset: parse one value
and require only whitespace to remain. -/
def jsonParse (s : String) : Option JVal :=
  match parseJVal (3 * s.length + 3) s.data with
  | none => none
  | some (v, rest) => if (skipWs rest).isEmpty then some v else none

/-- The content-processing pipeline the code runs inside
`LLMSummarizer.generate_summary` (lines 245-249): strip fences, then
apply the newline repair unconditionally, then parse once; `none` makes
`generate_summary` return `None`. -/
def process_llm_content (content : String) : Option JVal :=
  jsonParse (repair_json_newlines (clean_json_response content))

/-- Modelled from the spec's words (claim C5): the repair pass as the
claim describes it, replacing every unescaped literal newline that is not
enclosed in a quoted JSON string with an *escaped* newline (the
two-character sequence backslash + n). -/
def specRepairAux : Option Char → List Char → List Char
  | _, [] => []
  | prev, c :: rest =>
    if c == '\n' && !(prev == some '\\') && countQuotes rest % 2 == 0 then
      '\\' :: 'n' :: specRepairAux (some c) rest
    else c :: specRepairAux (some c) rest

/-- Modelled from the spec's words (claim C5): the newline repair as
described, inserting escaped newlines. -/
def spec_repair_newlines (s : String) : String :=
  String.mk (specRepairAux none s.data)

/-- Modelled from the spec's words (claim C5): after stripping, the
content is first parsed as-is; only on parse failure is the newline
repair applied and the parse retried exactly once. -/
def spec_parse_pipeline (content : String) : Option JVal :=
  let c := clean_json_response content
  match jsonParse c with
  | some v => some v
  | none => jsonParse (repair_json_newlines c)

/-! ### Spec-side definitions used for refinement comparisons -/

/-- Modelled from the spec's words (claim C8): the fixed priority table
damaged > delay > wrong_variant > return > refund, sharing the source's
keyword lists and its case-insensitive substring predicate. -/
def spec_issue_table : List (List String × String) :=
  [(kwDamaged, "Damaged item on arrival"),
   (kwDelay, "Late delivery"),
   (kwWrongVariant, "Wrong variant received"),
   (kwReturn, "Return request"),
   (kwRefund, "Refund request")]

/-- Modelled from the spec's words (claim C8): the issue type of the
first keyword group that matches, default "General inquiry". -/
def spec_classify_issue (text : String) : String :=
  match spec_issue_table.find? (fun g => contains_any_keyword text g.1) with
  | some g => g.2
  | none => "General inquiry"

/-- The `issue_type` value set enumerated by the spec's schema. -/
def issueTypeEnum : List String :=
  ["Damaged item on arrival", "Late delivery", "Wrong variant received",
   "Return request", "Refund request", "General inquiry"]

/-- The `recommended_disposition` value set enumerated by the spec's
schema. -/
def dispositionEnum : List String :=
  ["Refund", "Replacement", "RMA + Refund", "Agent to confirm with customer"]

/-! ### Concrete fixtures used by witnesses and counterexamples -/

/-- A reference-data environment with no orders and no customers. -/
def envNone : CrmEnv := ⟨fun _ => none, fun _ => none⟩

/-- A minimal thread payload. -/
def threadBasic : Thread :=
  { thread_id := "CE-1", order_id := "", product := "", initiated_by := "customer",
    messages := [] }

/-- A parsed model response whose `next_actions` is the empty list. -/
def pEmptyActions : ParsedJson :=
  { draft_summary := some "s", issue_type := some "X", customer_ask := some [],
    recommended_disposition := some "Y", next_actions := some [] }

/-- A parsed model response carrying classification values outside the
schema's enumerations. -/
def pOutOfEnum : ParsedJson :=
  { draft_summary := none, issue_type := some "Banana", customer_ask := none,
    recommended_disposition := some "Teleport", next_actions := none }

/-- Thread columns for the review-state fixtures. -/
def cexMeta : ThreadMeta :=
  { thread_id := "CE-1", subject := "subj", topic := "top", order_id := "ORD-1",
    product := "Widget" }

/-- A draft-fields payload for the review-state fixtures. -/
def cexFieldsV : Fields := [("issue_type", "Refund request")]

/-- Store after a first `summarize` call. -/
def cexSt1 : Option SummaryRow :=
  (runOp cexMeta (.summarizeOp "draft1" cexFieldsV) none).st

/-- Store after approving that draft. -/
def cexSt2 : Option SummaryRow :=
  (runOp cexMeta (.approveOp "alice" "2026-10-12T00:00:00") cexSt1).st

/-- Outcome of re-running `summarize` on the approved summary. -/
def cexOut3 : OpOut := runOp cexMeta (.summarizeOp "draft2" cexFieldsV) cexSt2

/-! ### Helper lemmas -/

/-- The matched-newline substitution of `repair_json_newlines` replaces
every matched newline by a newline, so it maps any character list to
itself. -/
theorem repairAux_eq_self (l : List Char) : ∀ prev, repairAux prev l = l := by
  induction l with
  | nil => intro _; rfl
  | cons c rest ih =>
    intro prev
    unfold repairAux
    split
    next h =>
      have hc : c = '\n' := by
        simp only [Bool.and_eq_true, beq_iff_eq] at h
        exact h.1.1
      rw [hc, ih]
    next => rw [ih]

/-- `repair_json_newlines` is the identity function. -/
theorem repair_json_newlines_id (s : String) : repair_json_newlines s = s := by
  unfold repair_json_newlines
  rw [repairAux_eq_self]

/-- The stock-availability refinement preserves emptiness of the action
list. -/
theorem refine_isEmpty (stock : Option Bool) (as : List String) :
    (refine_next_actions stock as).isEmpty = as.isEmpty := by
  cases stock with
  | none => rfl
  | some b => cases as <;> rfl

/-- `build_next_actions` never returns an empty list. -/
theorem build_next_actions_isEmpty_false (issue : String) (asks : List String) :
    (build_next_actions issue asks).isEmpty = false := by
  unfold build_next_actions
  cases h : (buildNextActionsCore issue asks).isEmpty
  · simp [h]
  · simp [h]

/-- The `next_actions` field of the rule-based result is the refined
version of the built action list. -/
theorem rule_next_actions_eq (env : CrmEnv) (thread : Thread) :
    (rule_based_summarize env thread).draft_fields.next_actions =
      refine_next_actions (fetch_crm_context env thread.order_id).stock_available
        (build_next_actions (classify_issue_type (allText thread))
          (detect_customer_asks (allText thread))) := rfl

/-- With no LLM analysis available, the orchestrator returns the
rule-based result with the rule-based footer. -/
theorem thread_summarize_none (env : CrmEnv) (thread : Thread) (key : Option String)
    (validateOk : Bool) :
    thread_summarize env thread key validateOk none =
      rule_based_with_footer env thread := by
  unfold thread_summarize
  rw [ite_self]

/-! ### Claim theorems -/

/-- C8: `classify_issue_type` returns the issue type of the first keyword
group that matches, evaluated in the fixed priority order damaged, delay,
wrong_variant, return, refund (a group matching iff any of its keywords
occurs case-insensitively as a substring of the text), with default
"General inquiry"; in particular a text matching both a damaged keyword
and a refund keyword classifies as "Damaged item on arrival". -/
theorem C8_classify_priority :
    (∀ text : String, classify_issue_type text = spec_classify_issue text) ∧
    classify_issue_type "Item arrived damaged, please refund my money" =
      "Damaged item on arrival" := by
  constructor
  · intro text
    unfold classify_issue_type spec_classify_issue spec_issue_table
    cases h1 : contains_any_keyword text kwDamaged <;>
    cases h2 : contains_any_keyword text kwDelay <;>
    cases h3 : contains_any_keyword text kwWrongVariant <;>
    cases h4 : contains_any_keyword text kwReturn <;>
    cases h5 : contains_any_keyword text kwRefund <;>
    simp [List.find?, h1, h2, h3, h4, h5]
  · rfl

/-- C9: when `stock_available` is known, every `next_actions` entry equal
to the literal "Offer replacement if stock available" is rewritten in
place to the stock-available or backorder variant, all other entries and
the list's length and order are unchanged, and when `stock_available` is
absent the list is unchanged; the rule-based summarizer's `next_actions`
is exactly this refinement of the built action list. -/
theorem C9_stock_refinement :
    (∀ actions : List String, refine_next_actions none actions = actions) ∧
    (∀ (b : Bool) (actions : List String),
      refine_next_actions (some b) actions =
        actions.map (fun a =>
          if a = actReplacement then
            if b then actReplacementInStock else actReplacementBackorder
          else a)) ∧
    (∀ (b : Bool) (actions : List String),
      (refine_next_actions (some b) actions).length = actions.length) ∧
    (∀ (env : CrmEnv) (thread : Thread),
      (rule_based_summarize env thread).draft_fields.next_actions =
        refine_next_actions (fetch_crm_context env thread.order_id).stock_available
          (build_next_actions (classify_issue_type (allText thread))
            (detect_customer_asks (allText thread)))) := by
  refine ⟨fun _ => rfl, ?_, ?_, fun env thread => rule_next_actions_eq env thread⟩
  · intro b actions
    have hfun :
        (fun a => if a = actReplacement && b then actReplacementInStock
          else if a = actReplacement && !b then actReplacementBackorder else a)
          = (fun a => if a = actReplacement then
              if b then actReplacementInStock else actReplacementBackorder
            else a) := by
      funext a
      by_cases h : a = actReplacement <;> cases b <;> simp [h]
    calc refine_next_actions (some b) actions
        = actions.map (fun a => if a = actReplacement && b then actReplacementInStock
            else if a = actReplacement && !b then actReplacementBackorder else a) := rfl
      _ = actions.map (fun a => if a = actReplacement then
              if b then actReplacementInStock else actReplacementBackorder
            else a) := by rw [hfun]
  · intro b actions
    simp [refine_next_actions]

/-- C4: after `approve` on an existing Summary, `approved_summary` is the
edited summary when non-empty and the draft summary otherwise,
`approved_fields` the edited fields when non-empty and the draft fields
otherwise, the state is APPROVED, and the approver and the approval
timestamp are recorded. -/
theorem C4_approval_copy (s : SummaryRow) (approver now : String) (meta : ThreadMeta) :
    (approveRow s approver now).approved_summary =
      (if s.edited_summary = "" then s.draft_summary else s.edited_summary) ∧
    (approveRow s approver now).approved_fields =
      (if s.edited_fields = [] then s.draft_fields else s.edited_fields) ∧
    (approveRow s approver now).state = .approved ∧
    (approveRow s approver now).approver = approver ∧
    (approveRow s approver now).approved_at = some now ∧
    (runOp meta (.approveOp approver now) (some s)).st =
      some (approveRow s approver now) := by
  refine ⟨rfl, ?_, rfl, rfl, rfl, rfl⟩
  cases h : s.edited_fields <;> simp [approveRow, h]

/-- C7: `summarize` on an existing Summary in any state overwrites only
`draft_summary` and `draft_fields` and sets the state to DRAFTED, leaving
`edited_summary`, `edited_fields`, `approved_summary`, `approved_fields`,
`approver` and `approved_at` unchanged. -/
theorem C7_summarize_frame (meta : ThreadMeta) (ds : String) (df : Fields)
    (s : SummaryRow) :
    ∃ s2 : SummaryRow,
      (runOp meta (.summarizeOp ds df) (some s)).st = some s2 ∧
      (runOp meta (.summarizeOp ds df) (some s)).ok = true ∧
      s2.draft_summary = ds ∧ s2.draft_fields = df ∧ s2.state = .drafted ∧
      s2.edited_summary = s.edited_summary ∧ s2.edited_fields = s.edited_fields ∧
      s2.approved_summary = s.approved_summary ∧
      s2.approved_fields = s.approved_fields ∧
      s2.approver = s.approver ∧ s2.approved_at = s.approved_at :=
  ⟨_, rfl, rfl, rfl, rfl, rfl, rfl, rfl, rfl, rfl, rfl, rfl⟩

/-- C3: each successful `approve` call appends exactly one record to the
approved-summaries export log, carrying the thread identifiers, approved
text and fields, approver and approval timestamp; `summarize`,
`save_edit`, and a failed `approve` append no records. -/
theorem C3_export_exactly_once :
    (∀ (meta : ThreadMeta) (approver now : String) (s : SummaryRow),
      (runOp meta (.approveOp approver now) (some s)).exports =
        [mkExportRecord meta (approveRow s approver now)]) ∧
    (∀ (meta : ThreadMeta) (approver now : String) (s : SummaryRow),
      (mkExportRecord meta (approveRow s approver now)).thread_id = meta.thread_id ∧
      (mkExportRecord meta (approveRow s approver now)).subject = meta.subject ∧
      (mkExportRecord meta (approveRow s approver now)).topic = meta.topic ∧
      (mkExportRecord meta (approveRow s approver now)).order_id = meta.order_id ∧
      (mkExportRecord meta (approveRow s approver now)).product = meta.product ∧
      (mkExportRecord meta (approveRow s approver now)).approved_summary =
        (approveRow s approver now).approved_summary ∧
      (mkExportRecord meta (approveRow s approver now)).approved_fields =
        (approveRow s approver now).approved_fields ∧
      (mkExportRecord meta (approveRow s approver now)).approver = approver ∧
      (mkExportRecord meta (approveRow s approver now)).approved_at = now) ∧
    (∀ (meta : ThreadMeta) (ds : String) (df : Fields) (st : Option SummaryRow),
      (runOp meta (.summarizeOp ds df) st).exports = []) ∧
    (∀ (meta : ThreadMeta) (es : String) (ef : Fields) (st : Option SummaryRow),
      (runOp meta (.saveEditOp es ef) st).exports = []) ∧
    (∀ (meta : ThreadMeta) (approver now : String),
      (runOp meta (.approveOp approver now) none).exports = []) := by
  refine ⟨fun _ _ _ _ => rfl,
    fun _ _ _ _ => ⟨rfl, rfl, rfl, rfl, rfl, rfl, rfl, rfl, rfl⟩,
    fun _ _ _ st => by cases st <;> rfl,
    fun _ _ _ st => by cases st <;> rfl,
    fun _ _ _ => rfl⟩

/-- C1: whenever the supplied credential is empty (`None` or `""`), or
credential validation fails (covering HTTP 401, any non-200 status, and
transport errors), or generation fails (covering non-200 responses, empty
content, unparsable JSON, and transport errors), `summarize` returns
exactly the rule-based summarizer's result for the thread with only the
rule-based provenance footer appended to `draft_summary`, raising nothing
to the caller. -/
theorem C1_silent_fallback (env : CrmEnv) (thread : Thread) (key : Option String)
    (validateOk : Bool) (genResult : Option LLMAnalysis)
    (h : key = none ∨ key = some "" ∨ validateOk = false ∨ genResult = none) :
    thread_summarize env thread key validateOk genResult =
      rule_based_with_footer env thread ∧
    (thread_summarize env thread key validateOk genResult).draft_summary =
      (rule_based_summarize env thread).draft_summary ++ ruleFooter := by
  have hnone : (if keyTruthy key && validateOk then genResult else none) =
      (none : Option LLMAnalysis) := by
    rcases h with h | h | h | h
    · simp [h, keyTruthy]
    · simp [h, keyTruthy]
    · simp [h]
    · simp [h]
  have heq : thread_summarize env thread key validateOk genResult =
      rule_based_with_footer env thread := by
    unfold thread_summarize
    rw [hnone]
  exact ⟨heq, by rw [heq]; rfl⟩

/-- Witness for C1 at a concrete empty credential. -/
theorem C1_silent_fallback_witness :
    ((some "" : Option String) = none ∨ (some "" : Option String) = some "" ∨
      true = false ∨ (some (generate_analysis pEmptyActions) : Option LLMAnalysis) = none) ∧
    thread_summarize envNone threadBasic (some "") true
        (some (generate_analysis pEmptyActions)) =
      rule_based_with_footer envNone threadBasic :=
  ⟨Or.inr (Or.inl rfl),
   (C1_silent_fallback envNone threadBasic (some "") true
      (some (generate_analysis pEmptyActions)) (Or.inr (Or.inl rfl))).1⟩

/-- C2 counterexample: re-running `summarize` on an APPROVED summary
succeeds and moves the state back to DRAFTED without deleting the row, a
transition that is neither forward along DRAFTED → EDITED → APPROVED nor
a reset to absent; hence the claim as stated is false. -/
theorem C2_monotonic_counterexample :
    (cexOut3.ok = true ∧ specForwardB cexSt2 cexOut3.st = false) ∧ ¬ C2claimProp := by
  refine ⟨⟨rfl, rfl⟩, fun hcl => ?_⟩
  have h1 := (hcl cexMeta (.summarizeOp "draft2" cexFieldsV) cexSt2).1 rfl
  exact absurd h1 (by decide)

/-- C2 amended: every successful operation lands in the state its view
writes — `summarize` in DRAFTED (from any prior state, re-opening the
review), `save_edit` in EDITED, `approve` in APPROVED, `admin_reset` in
absent — and an operation fails exactly when it requires an existing
Summary (`save_edit`, `approve`) and none exists, in which case it
signals not-found and changes no state. -/
theorem C2_amended_transitions (meta : ThreadMeta) (op : Op) (st : Option SummaryRow) :
    ((runOp meta op st).ok = true → stepAllowedB op (runOp meta op st).st = true) ∧
    ((runOp meta op st).ok = false ↔ summaryRequired op = true ∧ st = none) ∧
    ((runOp meta op st).ok = false → (runOp meta op st).st = st) := by
  cases op <;> cases st <;>
    simp [runOp, stepAllowedB, summaryRequired, approveRow] <;> rfl

/-- Witness for C2 amended: `approve` with no Summary row fails and
leaves the store unchanged. -/
theorem C2_amended_transitions_witness :
    (runOp cexMeta (.approveOp "alice" "t0") none).ok = false ∧
    (runOp cexMeta (.approveOp "alice" "t0") none).st = none :=
  ⟨rfl, (C2_amended_transitions cexMeta (.approveOp "alice" "t0") none).2.2 rfl⟩

/-- C5 counterexample: the repair pass does not perform the replacement
the claim describes.  On `"[1,\n2]"` (an unescaped newline outside any
quoted string) the described repair would produce `"[1,\\n2]"`, but
`repair_json_newlines` returns the content unchanged: the `re.sub`
replacement template denotes a newline, so the pass rewrites nothing. -/
theorem C5_repair_counterexample :
    repair_json_newlines "[1,\n2]" = "[1,\n2]" ∧
    spec_repair_newlines "[1,\n2]" = "[1,\\n2]" ∧
    ((spec_repair_newlines "[1,\n2]" == repair_json_newlines "[1,\n2]") = false) ∧
    process_llm_content "[1,\n2]" = some (JVal.jarr [JVal.jnum 1, JVal.jnum 2]) :=
  ⟨rfl, rfl, rfl, rfl⟩

/-- C5 amended: the newline-repair pass rewrites nothing (it replaces
each matched newline with a newline), and it is applied unconditionally
before a single parse attempt; consequently the pipeline is
observationally the spec's parse-then-retry pipeline: the result is
present iff the stripped content parses, and stripped content that is
already valid JSON always yields a present result. -/
theorem C5_amended_pipeline (content : String) :
    repair_json_newlines content = content ∧
    process_llm_content content = jsonParse (clean_json_response content) ∧
    process_llm_content content = spec_parse_pipeline content := by
  refine ⟨repair_json_newlines_id content, ?_, ?_⟩
  · unfold process_llm_content
    rw [repair_json_newlines_id]
  · unfold process_llm_content spec_parse_pipeline
    cases h : jsonParse (clean_json_response content) <;>
      simp [h, repair_json_newlines_id]

/-- C6 counterexample: on the LLM path the model's `next_actions` list is
copied verbatim, so a parsed response with `"next_actions": []` makes
`summarize` return an empty `next_actions`, contradicting the claimed
non-emptiness on both paths. -/
theorem C6_nonempty_counterexample :
    (thread_summarize envNone threadBasic (some "k") true
        (some (generate_analysis pEmptyActions))).draft_fields.next_actions = [] :=
  rfl

/-- C6 amended: on the rule-based path (always taken when the LLM path
yields nothing) `next_actions` is non-empty, with the single default
action inserted when no trigger rule fires; on the LLM path the list is
copied verbatim from the model's analysis and may be empty. -/
theorem C6_next_actions_amended :
    (∀ (issue : String) (asks : List String),
      (build_next_actions issue asks).isEmpty = false) ∧
    (∀ (issue : String) (asks : List String),
      buildNextActionsCore issue asks = [] →
        build_next_actions issue asks = [actDefault]) ∧
    (∀ (env : CrmEnv) (thread : Thread),
      ((rule_based_summarize env thread).draft_fields.next_actions).isEmpty = false) ∧
    (∀ (env : CrmEnv) (thread : Thread) (key : Option String) (validateOk : Bool),
      ((thread_summarize env thread key validateOk none).draft_fields.next_actions).isEmpty
        = false) ∧
    (∀ (env : CrmEnv) (thread : Thread) (key : Option String) (a : LLMAnalysis),
      keyTruthy key = true →
        (thread_summarize env thread key true (some a)).draft_fields.next_actions =
          (a.draft_fields.bind LLMFieldsOpt.next_actions).getD []) := by
  refine ⟨build_next_actions_isEmpty_false, ?_, ?_, ?_, ?_⟩
  · intro issue asks h
    unfold build_next_actions
    simp [h]
  · intro env thread
    rw [rule_next_actions_eq, refine_isEmpty]
    exact build_next_actions_isEmpty_false _ _
  · intro env thread key validateOk
    rw [thread_summarize_none]
    show ((rule_based_summarize env thread).draft_fields.next_actions).isEmpty = false
    rw [rule_next_actions_eq, refine_isEmpty]
    exact build_next_actions_isEmpty_false _ _
  · intro env thread key a hk
    unfold thread_summarize
    rw [hk]
    rfl

/-- Witness for C6 amended: with no trigger rule firing, the default
action is inserted. -/
theorem C6_next_actions_amended_witness :
    buildNextActionsCore "General inquiry" [] = [] ∧
    build_next_actions "General inquiry" [] = [actDefault] :=
  ⟨rfl, C6_next_actions_amended.2.1 "General inquiry" [] rfl⟩

/-- C10: on the LLM path, `issue_type` and `recommended_disposition` are
copied verbatim from the model's parsed JSON with no validation against
the enumerated value sets, defaulting to `""` (not to the orchestrator's
"General inquiry" / "Agent to confirm" fallbacks, which are unreachable
because `generate_summary` always supplies the keys); in particular a
model response can make `summarize` return values outside the schema's
enumerations. -/
theorem C10_verbatim_copy :
    (∀ (env : CrmEnv) (thread : Thread) (key : Option String) (p : ParsedJson),
      keyTruthy key = true →
        (thread_summarize env thread key true
            (some (generate_analysis p))).draft_fields.issue_type =
          p.issue_type.getD "" ∧
        (thread_summarize env thread key true
            (some (generate_analysis p))).draft_fields.recommended_disposition =
          p.recommended_disposition.getD "") ∧
    (thread_summarize envNone threadBasic (some "k") true
        (some (generate_analysis pOutOfEnum))).draft_fields.issue_type = "Banana" ∧
    (issueTypeEnum.contains "Banana") = false ∧
    (thread_summarize envNone threadBasic (some "k") true
        (some (generate_analysis pOutOfEnum))).draft_fields.recommended_disposition =
      "Teleport" ∧
    (dispositionEnum.contains "Teleport") = false := by
  refine ⟨?_, rfl, rfl, rfl, rfl⟩
  intro env thread key p hk
  constructor <;>
    (unfold thread_summarize; rw [hk]; rfl)

/-- Witness for C10 at a concrete truthy key and out-of-enumeration
model response. -/
theorem C10_verbatim_copy_witness :
    keyTruthy (some "k") = true ∧
    (thread_summarize envNone threadBasic (some "k") true
        (some (generate_analysis pOutOfEnum))).draft_fields.issue_type =
      pOutOfEnum.issue_type.getD "" :=
  ⟨rfl, (C10_verbatim_copy.1 envNone threadBasic (some "k") pOutOfEnum rfl).1⟩

end CeSdm
